import Mathlib

/-!
Verification of the atompy panel-layout geometry engine
(`src/atompy/_plotting.py`) against its specification.

The Python source is shallowly embedded over exact rationals: matplotlib
normalized axes positions become `Bbox` values with fields `x0 y0 width
height` (fractions of the figure size), figure sizes are rationals in
inches, and numpy `ArrayLike` pad parameters become the `PadArg` tagged
union mirroring the `np.array(...).size == 1` broadcast test.  Fallible
code paths (`raise ValueError`, `raise FigureWidthTooLargeError`) return
`Except`.
-/

namespace Atompy

/-- `PTS_PER_INCH` constant from `_plotting.py` line 20 (72 pts = 1 inch). -/
def PTS_PER_INCH : ℚ := 72

/-- A matplotlib bounding box as used by `Axes.get_position` /
`Axes.set_position`: origin `(x0, y0)` plus `width`/`height`.  Values are
either normalized figure fractions or inches depending on context. -/
structure Bbox where
  x0 : ℚ
  y0 : ℚ
  width : ℚ
  height : ℚ
deriving DecidableEq, Repr

/-- Right edge of a box, `bbox.x1` in matplotlib. -/
def Bbox.x1 (b : Bbox) : ℚ := b.x0 + b.width

/-- Top edge of a box, `bbox.y1` in matplotlib. -/
def Bbox.y1 (b : Bbox) : ℚ := b.y0 + b.height

/-- `get_axes_position_inch` (lines 1233-1272): convert a normalized
position box to physical inches using the figure size. -/
def toInch (fwInch fhInch : ℚ) (b : Bbox) : Bbox :=
  ⟨b.x0 * fwInch, b.y0 * fhInch, b.width * fwInch, b.height * fhInch⟩

/-- The `Edges` dataclass (lines 119-143): a four-sided value container. -/
structure Edges where
  left : ℚ
  right : ℚ
  top : ℚ
  bottom : ℚ
deriving DecidableEq, Repr

/-- `Edges.__iter__` (lines 134-136): the source yields
`[self.right, self.left, self.top, self.bottom]` in that order. -/
def Edges.iterList (e : Edges) : List ℚ :=
  [e.right, e.left, e.top, e.bottom]

/-- `Edges.__getitem__` with an integer key (lines 138-141): positional
lookup in the list `[left, right, top, bottom]`.  An out-of-range index
raises in Python, hence `Option`. -/
def Edges.getPos (e : Edges) (k : ℕ) : Option ℚ :=
  [e.left, e.right, e.top, e.bottom].get? k

/-- `Edges.__getitem__` with a string key (lines 138-141): the key is
converted via `["left", "right", "top", "bottom"].index(key)` and then
looked up positionally.  A missing name raises in Python, hence `Option`. -/
def Edges.getStr (e : Edges) (key : String) : Option ℚ :=
  (["left", "right", "top", "bottom"].findIdx? (fun s => s == key)).bind e.getPos

/-- An `ArrayLike` pad/margin argument after `np.array(...)`: either a
0-d scalar or a 1-d sequence.  `np.array(x).size == 1` holds for both a
scalar and a length-1 sequence, which is exactly what the broadcast
branches in the source test. -/
inductive PadArg
  | scalar (v : ℚ)
  | seq (l : List ℚ)
deriving DecidableEq, Repr

/-- `np.array(p).size`. -/
def PadArg.size : PadArg → ℕ
  | .scalar _ => 1
  | .seq l => l.length

/-- The `value = p[0] if p.shape else p` extraction used by every
broadcast branch of the source. -/
def PadArg.value0 : PadArg → ℚ
  | .scalar v => v
  | .seq l => l.headD 0

/-- The underlying sequence of a 1-d argument (a 0-d scalar never reaches
the sequence branches of the source). -/
def PadArg.toList : PadArg → List ℚ
  | .scalar v => [v]
  | .seq l => l

/-- Error taxonomy of the embedded code paths: `shapeMismatch` stands for
the `ValueError` raised on a pad-shape mismatch, `figureWidthTooLarge`
for `FigureWidthTooLargeError` (lines 91-95), `onlyOneColumn` /
`onlyOneRow` for the single-column/row `ValueError`s. -/
inductive MmnError
  | shapeMismatch
  | figureWidthTooLarge
  | onlyOneColumn
  | onlyOneRow
deriving DecidableEq, Repr

/-- `np.min` over a nonempty list of rationals (the source never takes a
minimum of an empty array; the `[]` case is junk totalization). -/
def listMin : List ℚ → ℚ
  | [] => 0
  | x :: xs => xs.foldl min x

/-- `np.max` over a nonempty list of rationals. -/
def listMax : List ℚ → ℚ
  | [] => 0
  | x :: xs => xs.foldl max x

/-- Column-pad resolution of `make_me_nice` (lines 1476-1485): only
validated when `ncols > 1`; a size-1 argument broadcasts to `ncols-1`
slots; other lengths raise; for a single column the pads are `[0.0]`
without looking at the argument.  Results are converted to inches. -/
def makeMeNiceColPadsInch (ncols : ℕ) (p : PadArg) : Except MmnError (List ℚ) :=
  if 1 < ncols then
    if p.size = 1 then Except.ok (List.replicate (ncols - 1) (p.value0 / PTS_PER_INCH))
    else if p.size ≠ ncols - 1 then Except.error MmnError.shapeMismatch
    else Except.ok (p.toList.map (fun v => v / PTS_PER_INCH))
  else Except.ok [0]

/-- Row-pad resolution of `make_me_nice` (lines 1487-1496): only
validated when `nrows > 1`; a size-1 argument broadcasts to `nrows-1`
slots; but the sequence branch checks the shape against `(ncols-1,)`
(source line 1492), not `(nrows-1,)`; for a single row the pads are
`[0.0]` without looking at the argument. -/
def makeMeNiceRowPadsInch (nrows ncols : ℕ) (p : PadArg) : Except MmnError (List ℚ) :=
  if 1 < nrows then
    if p.size = 1 then Except.ok (List.replicate (nrows - 1) (p.value0 / PTS_PER_INCH))
    else if p.size ≠ ncols - 1 then Except.error MmnError.shapeMismatch
    else Except.ok (p.toList.map (fun v => v / PTS_PER_INCH))
  else Except.ok [0]

/-- Pad resolution of `set_min_row_pads` (lines 1141-1157): despite
operating on rows, the source rejects single-column figures (line 1146),
broadcasts a size-1 argument to `ncols-1` slots (line 1152) and checks a
sequence against shape `(ncols-1,)` (line 1153).  Pts are converted to
inches before the size test, as in the source. -/
def setMinRowPadsResolve (_nrows ncols : ℕ) (p : PadArg) : Except MmnError (List ℚ) :=
  if ncols = 1 then Except.error MmnError.onlyOneColumn
  else if p.size = 1 then Except.ok (List.replicate (ncols - 1) (p.value0 / PTS_PER_INCH))
  else if p.size ≠ ncols - 1 then Except.error MmnError.shapeMismatch
  else Except.ok (p.toList.map (fun v => v / PTS_PER_INCH))

end Atompy

namespace Atompy

/-- The tight x0 coordinates of one grid column: `[t.x0 for t in
tbboxes_inch[:, c]]`. -/
def colX0s (tb : ℕ → ℕ → Bbox) (nrows c : ℕ) : List ℚ :=
  (List.range nrows).map (fun r => (tb r c).x0)

/-- The tight x1 coordinates of one grid column. -/
def colX1s (tb : ℕ → ℕ → Bbox) (nrows c : ℕ) : List ℚ :=
  (List.range nrows).map (fun r => (tb r c).x1)

/-- The tight y1 coordinates of one grid row: `[t.y1 for t in
tbboxes_inch[r]]`. -/
def rowY1s (tb : ℕ → ℕ → Bbox) (ncols r : ℕ) : List ℚ :=
  (List.range ncols).map (fun c => (tb r c).y1)

/-- The tight y0 coordinates of one grid row. -/
def rowY0s (tb : ℕ → ℕ → Bbox) (ncols r : ℕ) : List ℚ :=
  (List.range ncols).map (fun c => (tb r c).y0)

/-- `extra_wspaces_inch` of `make_me_nice` (lines 1507-1512): slack of
column 0 is the leftmost tight x0; the slack of column `c > 0` is the gap
between column `c`'s tight content and column `c-1`'s. -/
def extraWspace (tb : ℕ → ℕ → Bbox) (nrows : ℕ) (c : ℕ) : ℚ :=
  if c = 0 then listMin (colX0s tb nrows 0)
  else listMin (colX0s tb nrows c) - listMax (colX1s tb nrows (c - 1))

/-- `extra_hspaces_inch` of `make_me_nice` (lines 1514-1519): slack of
row 0 is measured from the top figure edge (`fh_inch - max y1`); the
slack of row `r > 0` is the vertical gap between rows `r-1` and `r`. -/
def extraHspace (tb : ℕ → ℕ → Bbox) (ncols : ℕ) (fhInch : ℚ) (r : ℕ) : ℚ :=
  if r = 0 then fhInch - listMax (rowY1s tb ncols 0)
  else listMin (rowY0s tb ncols (r - 1)) - listMax (rowY1s tb ncols r)

/-- `new_fw_inch` of `make_me_nice` (lines 1521-1527): the full rendered
horizontal span minus the inter-column slacks (`extra_wspaces_inch[1:]`)
plus left/right margin pads plus all column pads. -/
def newFwInch (tb : ℕ → ℕ → Bbox) (nrows ncols : ℕ)
    (mLeft mRight : ℚ) (colPads : List ℚ) : ℚ :=
  (listMax (colX1s tb nrows (ncols - 1)) - listMin (colX0s tb nrows 0))
    - (((List.range ncols).drop 1).map (extraWspace tb nrows)).sum
    + mLeft + mRight + colPads.sum

/-- `new_fh_inch` of `make_me_nice` (lines 1560-1566): the full rendered
vertical span minus the inter-row slacks plus top/bottom margin pads
plus all row pads. -/
def newFhInch (tb : ℕ → ℕ → Bbox) (nrows ncols : ℕ)
    (mTop mBottom : ℚ) (rowPads : List ℚ) (fhInch : ℚ) : ℚ :=
  (listMax (rowY1s tb ncols 0) - listMin (rowY0s tb ncols (nrows - 1)))
    - (((List.range nrows).drop 1).map (extraHspace tb ncols fhInch)).sum
    + mTop + mBottom + rowPads.sum

/-- Spec-side inter-column slack ("for column c>0, slack_c = min(tight x0
in column c) − max(tight x1 in column c−1)").  Stated from the spec's
words, to be compared with the source-derived `extraWspace`. -/
def specSlack (tb : ℕ → ℕ → Bbox) (nrows : ℕ) (c : ℕ) : ℚ :=
  listMin (colX0s tb nrows c) - listMax (colX1s tb nrows (c - 1))

/-- Spec-side target width ("(max tight x1 over last column − min tight
x0 over first column) − Σ(column slacks for columns 1..ncols-1) +
marginLeft + marginRight + Σ(colPads)").  Stated from the spec's words. -/
def specTargetWidth (tb : ℕ → ℕ → Bbox) (nrows ncols : ℕ)
    (mLeft mRight : ℚ) (colPads : List ℚ) : ℚ :=
  (listMax (colX1s tb nrows (ncols - 1)) - listMin (colX0s tb nrows 0))
    - (((List.range ncols).drop 1).map (specSlack tb nrows)).sum
    + mLeft + mRight + colPads.sum

end Atompy

namespace Atompy

/-- The mutable geometry state touched by the optimizer: the figure's
physical size in inches and the normalized position box of every grid
axes, indexed by (row, col) with row 0 the top row. -/
structure FigState where
  fwInch : ℚ
  fhInch : ℚ
  axs : ℕ → ℕ → Bbox

/-- `set_axes_size` (lines 855-928) specialized to the `"center"` anchor
(the only anchor `make_me_nice` uses): the new normalized width/height is
the requested physical size divided by the figure size, and the origin
moves by half the size change in each direction. -/
def setAxesSizeCenter (fwInch fhInch : ℚ) (b : Bbox) (widthInch heightInch : ℚ) : Bbox :=
  let newW := widthInch / fwInch
  let newH := heightInch / fhInch
  ⟨b.x0 + (b.width - newW) / 2, b.y0 + (b.height - newH) / 2, newW, newH⟩

/-- The recursive re-invocation request emitted by the `fix_figwidth`
branch of `make_me_nice` (lines 1541-1555): the next pass's
`fix_figwidth` flag and `nruns` budget (the recursion always passes
`max_figwidth=np.inf`). -/
structure NextCall where
  fixFigwidth : Bool
  nruns : ℕ
deriving DecidableEq, Repr

/-- The `fix_figwidth == True` branch of `make_me_nice` (lines
1529-1555): compute `scale = fw_inch / new_fw_inch`, resize every grid
axes to `scale` times its physical size anchored at its own center, then
request a recursive pass with `fix_figwidth = (nruns > 1)` and budget
`nruns - 1` (the source always recurses; the second component is never
`none`). -/
def makeMeNiceFixTrue (s : FigState) (tb : ℕ → ℕ → Bbox) (nrows ncols : ℕ)
    (mLeft mRight : ℚ) (colPads : List ℚ) (nruns : ℕ) : FigState × Option NextCall :=
  let newFw := newFwInch tb nrows ncols mLeft mRight colPads
  let scale := s.fwInch / newFw
  ({ s with
      axs := fun r c =>
        let bInch := toInch s.fwInch s.fhInch (s.axs r c)
        setAxesSizeCenter s.fwInch s.fhInch (s.axs r c)
          (bInch.width * scale) (bInch.height * scale) },
   some ⟨decide (1 < nruns), nruns - 1⟩)

/-- The `fix_figwidth == False` branch of `make_me_nice` (lines
1557-1591): if the target width exceeds `max_figwidth`, raise
`FigureWidthTooLargeError` — the error carries the state at the raise
point, which is still the entry state since the check precedes every
mutation.  Otherwise resize the figure to the target size and reposition
every grid axes by removing the measured slacks and inserting the
requested pads and margins, renormalizing into the new figure size.
The trailing `update_colorbars()` call (line 1591) is modelled separately
by `updateColorbars` below. -/
def makeMeNiceFixFalse (s : FigState) (tb : ℕ → ℕ → Bbox) (nrows ncols : ℕ)
    (mpads : Edges) (colPads rowPads : List ℚ) (maxFigwidth : ℚ) :
    Except (MmnError × FigState) FigState :=
  if maxFigwidth < newFwInch tb nrows ncols mpads.left mpads.right colPads then
    Except.error (MmnError.figureWidthTooLarge, s)
  else
    Except.ok
      { fwInch := newFwInch tb nrows ncols mpads.left mpads.right colPads
        fhInch := newFhInch tb nrows ncols mpads.top mpads.bottom rowPads s.fhInch
        axs := fun r c =>
          let bInch := toInch s.fwInch s.fhInch (s.axs r c)
          let newFw := newFwInch tb nrows ncols mpads.left mpads.right colPads
          let newFh := newFhInch tb nrows ncols mpads.top mpads.bottom rowPads s.fhInch
          let x0sInch := bInch.x0
            - (((List.range (c + 1)).map (extraWspace tb nrows)).sum)
            + (colPads.take c).sum
            + mpads.left
          let y0sInch := bInch.y0
            + (((List.range (r + 1)).map (extraHspace tb ncols s.fhInch)).sum)
            - (rowPads.take r).sum
            - s.fhInch + newFh - mpads.top
          ⟨x0sInch / newFw, y0sInch / newFh, bInch.width / newFw, bInch.height / newFh⟩ }

/-- Spec-side property: `new` is `old` with both dimensions multiplied by
`scale` and the center point unchanged. -/
def rescaledAtCenter (scale : ℚ) (old new : Bbox) : Prop :=
  new.width = scale * old.width ∧ new.height = scale * old.height ∧
  new.x0 + new.width / 2 = old.x0 + old.width / 2 ∧
  new.y0 + new.height / 2 = old.y0 + old.height / 2

/-- Concrete grid state used by the closed witness/counterexample
theorems: a 1×1 grid on a 1-inch square figure. -/
def figState0 : FigState :=
  { fwInch := 1, fhInch := 1, axs := fun _ _ => ⟨0, 0, 1, 1⟩ }

/-- Concrete tight-box measurement for `figState0`: every tight box is
the full unit square in inches. -/
def tb0 : ℕ → ℕ → Bbox := fun _ _ => ⟨0, 0, 1, 1⟩

/-- Colorbar location relative to its parent axes (`_Colorbar.location`). -/
inductive CbLocation
  | left
  | right
  | top
  | bottom
deriving DecidableEq, Repr

/-- `_Colorbar` (lines 98-108), one entry of the process-wide
`_ColorbarManager` registry (lines 111-116): the colorbar axes and its
parent axes (identified here by keys into a position map), the location,
and the thickness/pad stored in inches by `add_colorbar`. -/
structure ColorbarEntry where
  cbId : ℕ
  parentId : ℕ
  location : CbLocation
  thicknessInch : ℚ
  padInch : ℚ
deriving DecidableEq, Repr

/-- The placement `update_colorbars` computes for one entry (lines
785-821): pad and thickness are renormalized by the figure width for
left/right locations and by the figure height for top/bottom, then the
colorbar axes is set flush against the parent's current position. -/
def cbNewBbox (fwInch fhInch : ℚ) (e : ColorbarEntry) (bboxAx : Bbox) : Bbox :=
  match e.location with
  | .left =>
      ⟨bboxAx.x0 - e.padInch / fwInch - e.thicknessInch / fwInch, bboxAx.y0,
        e.thicknessInch / fwInch, bboxAx.height⟩
  | .right =>
      ⟨bboxAx.x1 + e.padInch / fwInch, bboxAx.y0,
        e.thicknessInch / fwInch, bboxAx.height⟩
  | .top =>
      ⟨bboxAx.x0, bboxAx.y1 + e.padInch / fhInch,
        bboxAx.width, e.thicknessInch / fhInch⟩
  | .bottom =>
      ⟨bboxAx.x0, bboxAx.y0 - e.padInch / fhInch - e.thicknessInch / fhInch,
        bboxAx.width, e.thicknessInch / fhInch⟩

/-- One iteration of the `for colorbar in _colorbar_manager.colorbars`
loop of `update_colorbars` (lines 780-821): an entry whose colorbar axes
is not in the figure is skipped (`continue`, line 783); otherwise the
colorbar axes position is overwritten in the position map. -/
def updateColorbarsStep (fwInch fhInch : ℚ) (inFig : ℕ → Bool)
    (pos : ℕ → Bbox) (e : ColorbarEntry) : ℕ → Bbox :=
  if inFig e.cbId then
    fun i => if i = e.cbId then cbNewBbox fwInch fhInch e (pos e.parentId) else pos i
  else pos

/-- `update_colorbars` (lines 765-821): the loop over the registry, as a
fold over the axes-position map.  The registry itself is read-only in the
source (only axes positions are written), so the model returns only the
updated position map; the function is total — a skipped entry raises
nothing. -/
def updateColorbars (fwInch fhInch : ℚ) (inFig : ℕ → Bool)
    (registry : List ColorbarEntry) (pos : ℕ → Bbox) : ℕ → Bbox :=
  registry.foldl (updateColorbarsStep fwInch fhInch inFig) pos

/-- Spec-side predicate for C5 ("flush against the parent at the stored
location"): the physical gap between colorbar and parent equals the
stored pad, the physical thickness (width for left/right, height for
top/bottom) equals the stored thickness, and the colorbar spans exactly
the parent's extent along the other axis. -/
def flushAgainstParent (fwInch fhInch : ℚ) (e : ColorbarEntry) (cb parent : Bbox) : Prop :=
  match e.location with
  | .left =>
      (parent.x0 - cb.x1) * fwInch = e.padInch ∧ cb.width * fwInch = e.thicknessInch ∧
      cb.y0 = parent.y0 ∧ cb.height = parent.height
  | .right =>
      (cb.x0 - parent.x1) * fwInch = e.padInch ∧ cb.width * fwInch = e.thicknessInch ∧
      cb.y0 = parent.y0 ∧ cb.height = parent.height
  | .top =>
      (cb.y0 - parent.y1) * fhInch = e.padInch ∧ cb.height * fhInch = e.thicknessInch ∧
      cb.x0 = parent.x0 ∧ cb.width = parent.width
  | .bottom =>
      (parent.y0 - cb.y1) * fhInch = e.padInch ∧ cb.height * fhInch = e.thicknessInch ∧
      cb.x0 = parent.x0 ∧ cb.width = parent.width

/-- Concrete registry entry for the C5/C6 witnesses: colorbar axes 1
attached to the right of parent axes 0. -/
def cbEntry0 : ColorbarEntry := ⟨1, 0, CbLocation.right, 1/2, 1/4⟩

/-- Concrete figure membership for the C5/C6 witnesses: only axes 1 is in
the figure. -/
def inFig0 : ℕ → Bool := fun i => i == 1

/-- Concrete axes positions for the C5/C6 witnesses. -/
def pos0 : ℕ → Bbox := fun i =>
  if i = 0 then ⟨1/10, 1/5, 3/10, 2/5⟩ else ⟨0, 0, 0, 0⟩

/-- `get_column_pads_inches` (lines 992-1028): the physical gap between
the core boxes of horizontally adjacent axes,
`(bbox1.x0 - bbox0.x1) * fig_width_inch`. -/
def columnPadsInch (fwInch : ℚ) (axs : ℕ → ℕ → Bbox) (r c : ℕ) : ℚ :=
  ((axs r (c + 1)).x0 - (axs r c).x1) * fwInch

/-- `np.min(get_column_pads_inches(fig), axis=0)` (line 1067) for one
inter-column gap: the minimum over all rows. -/
def minColumnPadInch (fwInch : ℚ) (axs : ℕ → ℕ → Bbox) (nrows g : ℕ) : ℚ :=
  listMin ((List.range nrows).map (fun r => columnPadsInch fwInch axs r g))

/-- Pad resolution of `set_min_column_pads` (lines 1048-1065): rejects a
single-column figure, converts the requested pts by dividing by the
figure width in inches (line 1056 — the source does not divide by
`PTS_PER_INCH` here), broadcasts a size-1 argument to `ncols-1` slots and
rejects other sequence lengths. -/
def setMinColumnPadsResolve (ncols : ℕ) (fwInch : ℚ) (p : PadArg) : Except MmnError (List ℚ) :=
  if ncols = 1 then Except.error MmnError.onlyOneColumn
  else if p.size = 1 then Except.ok (List.replicate (ncols - 1) (p.value0 / fwInch))
  else if p.size ≠ ncols - 1 then Except.error MmnError.shapeMismatch
  else Except.ok (p.toList.map (fun v => v / fwInch))

/-- `deltas` of `set_min_column_pads` (line 1067): for each inter-column
gap, the current minimum gap over all rows minus the requested minimum. -/
def setMinColumnPadsDelta (fwInch : ℚ) (axs : ℕ → ℕ → Bbox) (nrows : ℕ)
    (xpadsInch : List ℚ) (g : ℕ) : ℚ :=
  minColumnPadInch fwInch axs nrows g - xpadsInch.getD g 0

/-- The repositioning loop of `set_min_column_pads` (lines 1068-1076):
every axes in column `c ≥ 1` is moved horizontally by
`- c * deltas[c-1] / fw_inch` (the factor is the column index times the
delta of the gap immediately left of the column, not a cumulative sum);
sizes and vertical positions are untouched, column 0 is untouched. -/
def setMinColumnPadsApply (fwInch : ℚ) (axs : ℕ → ℕ → Bbox) (nrows ncols : ℕ)
    (xpadsInch : List ℚ) : ℕ → ℕ → Bbox :=
  fun r c =>
    if r < nrows ∧ 1 ≤ c ∧ c < ncols then
      ⟨(axs r c).x0 - (c : ℚ) * setMinColumnPadsDelta fwInch axs nrows xpadsInch (c - 1) / fwInch,
        (axs r c).y0, (axs r c).width, (axs r c).height⟩
    else axs r c

/-- Grid for the C7 failing input: one row, three columns on a
1-inch-wide figure, with gaps 0.1 and 0.2 between adjacent columns. -/
def axsC7 : ℕ → ℕ → Bbox := fun r c =>
  if r = 0 ∧ c = 0 then ⟨0, 0, 1/10, 1/10⟩
  else if r = 0 ∧ c = 1 then ⟨2/10, 0, 1/10, 1/10⟩
  else if r = 0 ∧ c = 2 then ⟨5/10, 0, 1/10, 1/10⟩
  else ⟨0, 0, 0, 0⟩

/-- Alignment argument of `align_axes_horizontally`. -/
inductive HAlignment
  | center
  | left
  | right
deriving DecidableEq, Repr

/-- Alignment argument of `align_axes_vertically`. -/
inductive VAlignment
  | center
  | top
  | bottom
deriving DecidableEq, Repr

/-- `align_axes_horizontally` (lines 1631-1665): with `"center"` the new
x0 centers the panel on the reference; with `"left"` the source sets
`x0 = bbox_ref.x1 - bbox_ax.width` (the panel's right edge lands on the
reference's right edge); with `"right"` it sets `x0 = bbox_ref.x0` (left
edges coincide).  Only x0 changes; y0 and both sizes are kept. -/
def alignAxesHorizontally (b refBox : Bbox) (alignment : HAlignment) : Bbox :=
  match alignment with
  | .center => ⟨refBox.x0 + (refBox.width - b.width) / 2, b.y0, b.width, b.height⟩
  | .left => ⟨refBox.x1 - b.width, b.y0, b.width, b.height⟩
  | .right => ⟨refBox.x0, b.y0, b.width, b.height⟩

/-- `align_axes_vertically` (lines 1594-1628): with `"top"` the panel's
top edge lands on the reference's top edge (`y0 = bbox_ref.y1 -
bbox_ax.height`), with `"bottom"` the bottom edges coincide.  Only y0
changes. -/
def alignAxesVertically (b refBox : Bbox) (alignment : VAlignment) : Bbox :=
  match alignment with
  | .center => ⟨b.x0, refBox.y0 + (refBox.height - b.height) / 2, b.width, b.height⟩
  | .top => ⟨b.x0, refBox.y1 - b.height, b.width, b.height⟩
  | .bottom => ⟨b.x0, refBox.y0, b.width, b.height⟩

/-- Panel used by the C8 failing input. -/
def bC8 : Bbox := ⟨0, 0, 2, 1⟩

/-- Reference panel used by the C8 failing input. -/
def refC8 : Bbox := ⟨10, 5, 4, 1⟩

end Atompy

namespace Atompy

/- Helper lemmas. -/

lemma sum_map_congr {l : List ℕ} {f g : ℕ → ℚ} (h : ∀ a ∈ l, f a = g a) :
    (l.map f).sum = (l.map g).sum := by
  induction l with
  | nil => rfl
  | cons x xs ih =>
      simp only [List.map_cons, List.sum_cons]
      rw [h x (List.mem_cons_self x xs), ih (fun a ha => h a (List.mem_cons_of_mem x ha))]

lemma ne_zero_of_mem_range_drop_one {n a : ℕ} (h : a ∈ (List.range n).drop 1) : a ≠ 0 := by
  cases n with
  | zero => simp [List.range_zero] at h
  | succ m =>
      rw [List.range_succ_eq_map, List.drop_succ_cons, List.drop_zero] at h
      rcases List.mem_map.mp h with ⟨b, _, rfl⟩
      exact Nat.succ_ne_zero b

/-- C1: the optimizer's computed target width (`new_fw_inch`) coincides with
the spec formula: rendered horizontal span, minus the inter-column slacks for
columns `1..ncols-1`, plus left and right margin pads, plus all column pads. -/
theorem c1_target_width_matches_spec (tb : ℕ → ℕ → Bbox) (nrows ncols : ℕ)
    (mLeft mRight : ℚ) (colPads : List ℚ) :
    newFwInch tb nrows ncols mLeft mRight colPads
      = specTargetWidth tb nrows ncols mLeft mRight colPads := by
  unfold newFwInch specTargetWidth
  have hsum : (((List.range ncols).drop 1).map (extraWspace tb nrows)).sum
      = (((List.range ncols).drop 1).map (specSlack tb nrows)).sum := by
    apply sum_map_congr
    intro a ha
    unfold extraWspace specSlack
    rw [if_neg (ne_zero_of_mem_range_drop_one ha)]
  rw [hsum]

/-- C9 counterexample: iterating an `Edges` value does not yield the four
values in (left, right, top, bottom) order — the source's `__iter__` yields
right before left. -/
theorem c9_counterexample :
    Edges.iterList ⟨1, 2, 3, 4⟩ ≠ [1, 2, 3, 4] := by
  decide

/-- C9 (amended): positional and named access to an `Edges` value agree and
follow the order (left, right, top, bottom), while iteration yields the four
values in the order (right, left, top, bottom). -/
theorem c9_edges_access_orders (e : Edges) :
    e.getPos 0 = some e.left ∧ e.getPos 1 = some e.right ∧
    e.getPos 2 = some e.top ∧ e.getPos 3 = some e.bottom ∧
    e.getStr "left" = some e.left ∧ e.getStr "right" = some e.right ∧
    e.getStr "top" = some e.top ∧ e.getStr "bottom" = some e.bottom ∧
    e.iterList = [e.right, e.left, e.top, e.bottom] :=
  ⟨rfl, rfl, rfl, rfl, rfl, rfl, rfl, rfl, rfl⟩

/-- C4: the row-pad sequence length is validated against `ncols-1`, not
`nrows-1`, in both `make_me_nice` and `set_min_row_pads`.  For a 3×2 grid, a
row-pad sequence of the documented length `nrows-1 = 2` is rejected by both,
while for a 2×4 grid a sequence of the wrong length `3 = ncols-1 ≠ nrows-1 = 1`
is accepted by `make_me_nice`. -/
theorem c4_row_pads_validated_against_ncols :
    makeMeNiceRowPadsInch 3 2 (PadArg.seq [7, 9]) = Except.error MmnError.shapeMismatch ∧
    setMinRowPadsResolve 3 2 (PadArg.seq [7, 9]) = Except.error MmnError.shapeMismatch ∧
    makeMeNiceRowPadsInch 2 4 (PadArg.seq [72, 144, 216]) = Except.ok [1, 2, 3] := by
  refine ⟨rfl, rfl, ?_⟩
  unfold makeMeNiceRowPadsInch PTS_PER_INCH
  norm_num [PadArg.size, PadArg.toList]

/-- C10: with a single column the optimizer skips column-pad validation
entirely (any scalar or sequence is accepted) and resolves the pads to
`[0.0]`, so their contribution to the target width is zero; symmetrically for
a single row and the target height. -/
theorem c10_single_column_row_pads_unvalidated (p q : PadArg) (ncols' nrows' : ℕ)
    (tb : ℕ → ℕ → Bbox) (mL mR mT mB fh : ℚ) :
    makeMeNiceColPadsInch 1 p = Except.ok [0] ∧
    makeMeNiceRowPadsInch 1 ncols' q = Except.ok [0] ∧
    newFwInch tb nrows' 1 mL mR [0] = newFwInch tb nrows' 1 mL mR [] ∧
    newFhInch tb 1 ncols' mT mB [0] fh = newFhInch tb 1 ncols' mT mB [] fh := by
  refine ⟨rfl, rfl, ?_, ?_⟩
  · unfold newFwInch; norm_num
  · unfold newFhInch; norm_num

lemma setAxesSizeCenter_rescales (fwInch fhInch : ℚ) (hfw : fwInch ≠ 0) (hfh : fhInch ≠ 0)
    (b : Bbox) (scale : ℚ) :
    rescaledAtCenter scale b
      (setAxesSizeCenter fwInch fhInch b
        ((toInch fwInch fhInch b).width * scale) ((toInch fwInch fhInch b).height * scale)) := by
  unfold rescaledAtCenter setAxesSizeCenter toInch
  refine ⟨?_, ?_, ?_, ?_⟩
  · show b.width * fwInch * scale / fwInch = scale * b.width
    field_simp
    ring
  · show b.height * fhInch * scale / fhInch = scale * b.height
    field_simp
    ring
  · show b.x0 + (b.width - b.width * fwInch * scale / fwInch) / 2
        + b.width * fwInch * scale / fwInch / 2 = b.x0 + b.width / 2
    ring
  · show b.y0 + (b.height - b.height * fhInch * scale / fhInch) / 2
        + b.height * fhInch * scale / fhInch / 2 = b.y0 + b.height / 2
    ring

/-- C2 (amended): with `fixWidth = true`, every panel's core-box width and
height are multiplied by `scale = currentCanvasWidth / targetWidth` anchored at
the panel's own center; the pass then always requests a recursive pass: with
`fixWidth = true` and budget `iterations - 1` when `iterations > 1` remain, and
with `fixWidth = false` (the repositioning pass) when `iterations == 1` — it
never ends having only rescaled. -/
theorem c2_fix_width_rescales_then_recurses (s : FigState) (tb : ℕ → ℕ → Bbox)
    (nrows ncols : ℕ) (mLeft mRight : ℚ) (colPads : List ℚ) (nruns r c : ℕ)
    (hfw : s.fwInch ≠ 0) (hfh : s.fhInch ≠ 0) :
    rescaledAtCenter (s.fwInch / newFwInch tb nrows ncols mLeft mRight colPads)
      (s.axs r c) ((makeMeNiceFixTrue s tb nrows ncols mLeft mRight colPads nruns).1.axs r c) ∧
    (1 < nruns → (makeMeNiceFixTrue s tb nrows ncols mLeft mRight colPads nruns).2
        = some ⟨true, nruns - 1⟩) ∧
    (nruns = 1 → (makeMeNiceFixTrue s tb nrows ncols mLeft mRight colPads nruns).2
        = some ⟨false, 0⟩) := by
  refine ⟨?_, ?_, ?_⟩
  · exact setAxesSizeCenter_rescales s.fwInch s.fhInch hfw hfh (s.axs r c)
      (s.fwInch / newFwInch tb nrows ncols mLeft mRight colPads)
  · intro h
    simp [makeMeNiceFixTrue, h]
  · intro h
    subst h
    simp [makeMeNiceFixTrue]

/-- C2 witness: the amended theorem applied to the concrete 1×1 state. -/
theorem c2_witness :
    figState0.fwInch ≠ 0 ∧
    (rescaledAtCenter (figState0.fwInch / newFwInch tb0 1 1 0 0 [0])
        (figState0.axs 0 0) ((makeMeNiceFixTrue figState0 tb0 1 1 0 0 [0] 2).1.axs 0 0) ∧
      (1 < 2 → (makeMeNiceFixTrue figState0 tb0 1 1 0 0 [0] 2).2 = some ⟨true, 1⟩) ∧
      (2 = 1 → (makeMeNiceFixTrue figState0 tb0 1 1 0 0 [0] 2).2 = some ⟨false, 0⟩)) :=
  ⟨by norm_num [figState0],
   c2_fix_width_rescales_then_recurses figState0 tb0 1 1 0 0 [0] 2 0 0
     (by norm_num [figState0]) (by norm_num [figState0])⟩

/-- C2 counterexample: at the concrete input with `nruns = 2` the rescale pass
requests a recursive pass with `fix_figwidth = true`, not `false` as the claim
states; and with `nruns = 1` it still recurses instead of ending the pass. -/
theorem c2_counterexample :
    (makeMeNiceFixTrue figState0 tb0 1 1 0 0 [0] 2).2 ≠ some ⟨false, 1⟩ ∧
    (makeMeNiceFixTrue figState0 tb0 1 1 0 0 [0] 1).2 ≠ none := by
  constructor <;> simp [makeMeNiceFixTrue]

/-- C3: with `fixWidth = false` and a computed target width exceeding
`max_figwidth`, `make_me_nice` fails with `FigureWidthTooLargeError` and the
state carried at the raise point is exactly the entry state — the figure size
and every panel position are unmodified. -/
theorem c3_too_large_error_preserves_state (s : FigState) (tb : ℕ → ℕ → Bbox)
    (nrows ncols : ℕ) (mpads : Edges) (colPads rowPads : List ℚ) (maxFigwidth : ℚ)
    (h : maxFigwidth < newFwInch tb nrows ncols mpads.left mpads.right colPads) :
    makeMeNiceFixFalse s tb nrows ncols mpads colPads rowPads maxFigwidth
      = Except.error (MmnError.figureWidthTooLarge, s) := by
  unfold makeMeNiceFixFalse
  rw [if_pos h]

/-- C3 witness: on the concrete 1×1 state with `max_figwidth = 0` the target
width `1` exceeds the bound and the pass fails without touching the state. -/
theorem c3_witness :
    (0 : ℚ) < newFwInch tb0 1 1 0 0 [0] ∧
    makeMeNiceFixFalse figState0 tb0 1 1 ⟨0, 0, 0, 0⟩ [0] [0] 0
      = Except.error (MmnError.figureWidthTooLarge, figState0) :=
  ⟨by norm_num [newFwInch, colX0s, colX1s, listMin, listMax, tb0, Bbox.x1, List.range_succ],
   c3_too_large_error_preserves_state figState0 tb0 1 1 ⟨0, 0, 0, 0⟩ [0] [0] 0
     (by norm_num [newFwInch, colX0s, colX1s, listMin, listMax, tb0, Bbox.x1, List.range_succ])⟩

lemma updateColorbars_untouched (fwInch fhInch : ℚ) (inFig : ℕ → Bool)
    (l : List ColorbarEntry) (pos : ℕ → Bbox) (i : ℕ)
    (h : ∀ x ∈ l, inFig x.cbId = true → x.cbId ≠ i) :
    updateColorbars fwInch fhInch inFig l pos i = pos i := by
  induction l generalizing pos with
  | nil => rfl
  | cons a l ih =>
      have hcons : updateColorbars fwInch fhInch inFig (a :: l) pos
          = updateColorbars fwInch fhInch inFig l (updateColorbarsStep fwInch fhInch inFig pos a) := rfl
      rw [hcons, ih _ (fun x hx => h x (List.mem_cons_of_mem a hx))]
      unfold updateColorbarsStep
      by_cases hA : inFig a.cbId = true
      · rw [if_pos hA]
        exact if_neg (fun hi => h a (List.mem_cons_self a l) hA hi.symm)
      · rw [if_neg hA]

lemma updateColorbars_at (fwInch fhInch : ℚ) (inFig : ℕ → Bool) (e : ColorbarEntry)
    (hin : inFig e.cbId = true) :
    ∀ (l : List ColorbarEntry) (pos : ℕ → Bbox), e ∈ l →
      ((l.filter (fun x => inFig x.cbId)).map (fun x => x.cbId)).Nodup →
      (∀ x ∈ l, inFig x.cbId = true → x.cbId ≠ e.parentId) →
      updateColorbars fwInch fhInch inFig l pos e.cbId
        = cbNewBbox fwInch fhInch e (pos e.parentId) := by
  intro l
  induction l with
  | nil => intro pos he _ _; exact absurd he (List.not_mem_nil e)
  | cons a l ih =>
      intro pos he hnd hpar
      have hcons : updateColorbars fwInch fhInch inFig (a :: l) pos
          = updateColorbars fwInch fhInch inFig l (updateColorbarsStep fwInch fhInch inFig pos a) := rfl
      rw [hcons]
      rcases List.mem_cons.mp he with heq | he'
      · subst heq
        have hnd1 : e.cbId ∉ (l.filter (fun x => inFig x.cbId)).map (fun x => x.cbId) := by
          rw [@List.filter_cons_of_pos ColorbarEntry (fun x => inFig x.cbId) e l hin,
            List.map_cons] at hnd
          exact (List.nodup_cons.mp hnd).1
        have hni : ∀ x ∈ l, inFig x.cbId = true → x.cbId ≠ e.cbId := by
          intro x hx hxin hxeq
          exact hnd1 (hxeq ▸ List.mem_map_of_mem _ (List.mem_filter.mpr ⟨hx, hxin⟩))
        rw [updateColorbars_untouched fwInch fhInch inFig l _ e.cbId hni]
        unfold updateColorbarsStep
        rw [if_pos hin]
        simp
      · have hnd' : ((l.filter (fun x => inFig x.cbId)).map (fun x => x.cbId)).Nodup := by
          by_cases hA : inFig a.cbId = true
          · rw [@List.filter_cons_of_pos ColorbarEntry (fun x => inFig x.cbId) a l hA,
              List.map_cons] at hnd
            exact (List.nodup_cons.mp hnd).2
          · rwa [@List.filter_cons_of_neg ColorbarEntry (fun x => inFig x.cbId) a l hA] at hnd
        have hpar' : ∀ x ∈ l, inFig x.cbId = true → x.cbId ≠ e.parentId :=
          fun x hx => hpar x (List.mem_cons_of_mem a hx)
        rw [ih _ he' hnd' hpar']
        congr 2
        unfold updateColorbarsStep
        by_cases hA : inFig a.cbId = true
        · rw [if_pos hA]
          exact if_neg (fun hi => hpar a (List.mem_cons_self a l) hA hi.symm)
        · rw [if_neg hA]

lemma flush_cbNewBbox (fwInch fhInch : ℚ) (hfw : fwInch ≠ 0) (hfh : fhInch ≠ 0)
    (e : ColorbarEntry) (parent : Bbox) :
    flushAgainstParent fwInch fhInch e (cbNewBbox fwInch fhInch e parent) parent := by
  cases hloc : e.location <;>
    simp only [flushAgainstParent, cbNewBbox, hloc, Bbox.x1, Bbox.y1] <;>
    refine ⟨?_, ?_, trivial, trivial⟩ <;> field_simp <;> ring

/-- C5: after `update_colorbars`, every registered attachment whose colorbar
axes is in the figure has its colorbar flush against its parent's current core
box: physical gap equals the stored pad, physical thickness equals the stored
thickness, and the colorbar spans the parent's extent along the other axis.
The hypotheses state the intended registry shape: distinct colorbar axes, and
parents that are not themselves colorbars of the same figure. -/
theorem c5_colorbar_flush_after_update (fwInch fhInch : ℚ) (inFig : ℕ → Bool)
    (registry : List ColorbarEntry) (pos : ℕ → Bbox) (e : ColorbarEntry)
    (hfw : fwInch ≠ 0) (hfh : fhInch ≠ 0)
    (he : e ∈ registry) (hin : inFig e.cbId = true)
    (hnd : ((registry.filter (fun x => inFig x.cbId)).map (fun x => x.cbId)).Nodup)
    (hpar : ∀ x ∈ registry, inFig x.cbId = true → x.cbId ≠ e.parentId) :
    flushAgainstParent fwInch fhInch e
      (updateColorbars fwInch fhInch inFig registry pos e.cbId) (pos e.parentId) := by
  rw [updateColorbars_at fwInch fhInch inFig e hin registry pos he hnd hpar]
  exact flush_cbNewBbox fwInch fhInch hfw hfh e (pos e.parentId)

/-- C5 witness: the flushness theorem applied to a concrete one-entry
registry on a 2×3-inch figure. -/
theorem c5_witness :
    (2 : ℚ) ≠ 0 ∧
    flushAgainstParent 2 3 cbEntry0
      (updateColorbars 2 3 inFig0 [cbEntry0] pos0 cbEntry0.cbId) (pos0 cbEntry0.parentId) :=
  ⟨by norm_num,
   c5_colorbar_flush_after_update 2 3 inFig0 [cbEntry0] pos0 cbEntry0
     (by norm_num) (by norm_num) (List.mem_singleton_self _) (by decide)
     (by decide) (by decide)⟩

/-- C6: `update_colorbars` never touches — and never fails on — an entry
whose colorbar axes is not in the figure being updated: the position of any
axes absent from the figure is exactly what it was before the call (the
registry itself is read-only throughout, and the model is a total function,
mirroring that the skip raises nothing). -/
theorem c6_absent_colorbar_entries_skipped (fwInch fhInch : ℚ) (inFig : ℕ → Bool)
    (registry : List ColorbarEntry) (pos : ℕ → Bbox) (i : ℕ)
    (h : inFig i = false) :
    updateColorbars fwInch fhInch inFig registry pos i = pos i := by
  apply updateColorbars_untouched
  intro x hx hxin hxeq
  rw [hxeq, h] at hxin
  exact Bool.noConfusion hxin

/-- C6 witness: the skip theorem applied to a concrete registry and an axes
key absent from the figure. -/
theorem c6_witness :
    inFig0 5 = false ∧ updateColorbars 2 3 inFig0 [cbEntry0] pos0 5 = pos0 5 :=
  ⟨by decide, c6_absent_colorbar_entries_skipped 2 3 inFig0 [cbEntry0] pos0 5 (by decide)⟩

/-- C7: on a 1×3 grid with unequal existing gaps (0.1 and 0.2 inches) and a
requested minimum pad of 0, `set_min_column_pads` shifts column 2 by
`2 * deltas[1]` instead of `deltas[0] + deltas[1]`: its new x0 is 0.1, not the
0.2 the cumulative-delta rule predicts, and the resulting gap between columns
1 and 2 becomes −0.1 — below the requested minimum, contradicting the
function's documented purpose of enforcing a minimum distance. -/
theorem c7_noncumulative_shift_violates_min_pads :
    setMinColumnPadsResolve 3 1 (PadArg.scalar 0) = Except.ok [0, 0] ∧
    setMinColumnPadsDelta 1 axsC7 1 [0, 0] 0 = 1/10 ∧
    setMinColumnPadsDelta 1 axsC7 1 [0, 0] 1 = 2/10 ∧
    (setMinColumnPadsApply 1 axsC7 1 3 [0, 0] 0 2).x0 = 1/10 ∧
    (axsC7 0 2).x0 - (1/10 + 2/10) / 1 = 2/10 ∧
    columnPadsInch 1 (setMinColumnPadsApply 1 axsC7 1 3 [0, 0]) 0 1 = -(1/10) := by
  refine ⟨?_, ?_, ?_, ?_, ?_, ?_⟩ <;>
    norm_num [setMinColumnPadsResolve, setMinColumnPadsDelta, setMinColumnPadsApply,
      minColumnPadInch, columnPadsInch, listMin, axsC7, Bbox.x1, List.range_succ,
      PadArg.size, PadArg.value0, List.replicate]

/-- C8: `align_axes_horizontally` with `"left"` does not align left edges: at
the concrete input the moved panel's x0 is 12 while the reference's x0 is 10 —
instead its right edge lands on the reference's right edge; `"right"`
conversely aligns the left edges.  The vertical sibling aligns matching edges
(`"top"` puts the panel's top edge on the reference's top edge), showing the
horizontal cases are swapped. -/
theorem c8_align_left_right_swapped :
    (alignAxesHorizontally bC8 refC8 HAlignment.left).x0 ≠ refC8.x0 ∧
    (alignAxesHorizontally bC8 refC8 HAlignment.left).x1 = refC8.x1 ∧
    (alignAxesHorizontally bC8 refC8 HAlignment.right).x0 = refC8.x0 ∧
    (alignAxesHorizontally bC8 refC8 HAlignment.left).y0 = bC8.y0 ∧
    (alignAxesVertically bC8 refC8 VAlignment.top).y1 = refC8.y1 := by
  refine ⟨?_, ?_, ?_, ?_, ?_⟩ <;>
    norm_num [alignAxesHorizontally, alignAxesVertically, bC8, refC8, Bbox.x1, Bbox.y1]

end Atompy
